import Mathlib

/-!
Shallow embedding of the OTP account backend in `coengage/views.py`.

Modelling conventions:
- Times (`timezone.now()`, `otp_created_at`, `otp_expiration`,
  `otp_attempts_timestamp`) are integers counting seconds; `timedelta(minutes=10)`
  is 600 seconds.  Each distinct `timezone.now()` call site in a handler is a
  separate parameter, since the calls happen at (possibly) distinct instants.
- The Django ORM lookup (`CustomUser.objects.get`) is outside the embedding: each
  handler takes the already-fetched user record; the user-not-found branches are
  not modelled because no claim concerns them.
- The external SES client is a function parameter `ses : SendEmailRequest → SesOutcome`;
  a raised `BotoCoreError`/`ClientError` is the `botoError` outcome.
- `random.randint(100000, 999999)` is modelled by a parameter carrying the sampled
  value; `str(...)` of it is `Nat.repr`.
- Each handler returns its response together with the final persisted user record.
-/

/-- The fields of the `CustomUser` model used by the OTP lifecycle handlers. -/
structure CustomUser where
  username : String
  email : String
  is_verified : Bool
  otp : String
  otp_created_at : Int
  otp_expiration : Int
  otp_attempts : Nat
  otp_attempts_timestamp : Option Int
deriving DecidableEq

/-- The request `send_email_ses` hands to the external SES client. -/
structure SendEmailRequest where
  toAddresses : List String
  htmlBody : String
  subject : String
  source : String
deriving DecidableEq

/-- Outcome of the external `ses.send_email` call: a response carrying a
`MessageId`, or a raised `BotoCoreError` / `ClientError` rendered as a string. -/
inductive SesOutcome where
  | ok (messageId : String) : SesOutcome
  | botoError (error : String) : SesOutcome
deriving DecidableEq

/-- The dictionary `send_email_ses` returns. -/
structure EmailResult where
  success : Bool
  message : String
deriving DecidableEq

/-- The HTML body built by the f-string in `send_email_ses`. -/
def emailHtmlBody (username otp : String) : String :=
  "\n                            <p>Hello " ++ username ++ ",</p>\n" ++
  "                            <p>You requested a one-time password. Use this password to continue your process.</p>\n" ++
  "                            <table width=\x27100%\x27><tr><td style=\x27text-align: center; font-size: 28px; font-weight: bold;\x27>" ++ otp ++ "</td></tr></table>\n" ++
  "                            <p>If you didn\x27t request this email, please ignore it.</p>\n" ++
  "                            <p>\x2d\x2d Northeastern University Silicon Valley HackersClub</p>\n" ++
  "                        "

/-- `send_email_ses(username, otp, email)`: builds the message and dispatches it
through the external client `ses`; a raised boto error is caught and converted
into a structured failure result, a normal response into a success result
carrying the provider `MessageId`. -/
def send_email_ses (ses : SendEmailRequest → SesOutcome) (username otp email : String) :
    EmailResult :=
  match ses { toAddresses := [email], htmlBody := emailHtmlBody username otp,
              subject := "Your one-time password",
              source := "vidyalathanataraja.r@northeastern.edu" } with
  | SesOutcome.botoError error => { success := false, message := error }
  | SesOutcome.ok messageId => { success := true, message := messageId }

/-- A `VerifyEmail` response: HTTP status code and the `status` message body. -/
structure ApiResponse where
  status_code : Nat
  status : String
deriving DecidableEq

/-- The part of `VerifyEmail.post` after the expiration and lockout guards
(`nowFail` is the `timezone.now()` call stamped on a first failed attempt). -/
def verifyEmailChecksPassed (nowFail : Int) (otp : String) (user : CustomUser) :
    ApiResponse × CustomUser :=
  if user.is_verified then
    ({ status_code := 200, status := "Email already verified, please Login" }, user)
  else if otp = user.otp then
    ({ status_code := 200, status := "Email verified, please proceed to Login page" },
     { user with is_verified := true, otp_attempts := 0, otp_attempts_timestamp := none })
  else
    ({ status_code := 400, status := "Invalid OTP" },
     { user with otp_attempts := user.otp_attempts + 1,
                 otp_attempts_timestamp :=
                   if user.otp_attempts + 1 = 1 then some nowFail
                   else user.otp_attempts_timestamp })

/-- `VerifyEmail.post`.  `nowExp`, `nowLock`, `nowFail` are the three
`timezone.now()` call sites (expiration check, lockout elapsed-time check,
first-failure stamp).  The lockout guard subtracts `otp_attempts_timestamp`
only when `otp_attempts >= 3` (Python `and` short-circuits); if the timestamp
is absent there the Python raises `TypeError`, modelled as `none`. -/
def verifyEmailPost (nowExp nowLock nowFail : Int) (otp : String) (user : CustomUser) :
    Option (ApiResponse × CustomUser) :=
  if nowExp > user.otp_expiration then
    some ({ status_code := 400, status := "OTP has expired" }, user)
  else if 3 ≤ user.otp_attempts then
    match user.otp_attempts_timestamp with
    | none => none
    | some ts =>
      if nowLock - ts < 600 then
        some ({ status_code := 400,
                status := "Too many failed attempts. Please try again later." }, user)
      else some (verifyEmailChecksPassed nowFail otp user)
  else some (verifyEmailChecksPassed nowFail otp user)

/-- A `ResendOTP` response body: `status` or `email_error` plus `message`. -/
structure ResendResponse where
  status_code : Nat
  status : Option String
  email_error : Option String
  message : Option String
deriving DecidableEq

/-- `ResendOTP.post`.  `randValue` is the value sampled by
`random.randint(100000, 999999)`; `nowCreated` and `nowExpBase` are the two
`timezone.now()` call sites (lines setting `otp_created_at` and
`otp_expiration`).  The user record is saved before the email is sent. -/
def resendOTPPost (randValue : Nat) (nowCreated nowExpBase : Int)
    (ses : SendEmailRequest → SesOutcome) (user : CustomUser) :
    ResendResponse × CustomUser :=
  if user.is_verified then
    ({ status_code := 200, status := some "Email already verified, please Login",
       email_error := none, message := none }, user)
  else
    let user2 := { user with otp := Nat.repr randValue,
                             otp_created_at := nowCreated,
                             otp_expiration := nowExpBase + 600 }
    let emailResponse := send_email_ses ses user2.username user2.otp user2.email
    if emailResponse.success = false then
      ({ status_code := 500, status := none, email_error := some "OTP not sent",
         message := some emailResponse.message }, user2)
    else
      ({ status_code := 200, status := some "New OTP sent, please check your email.",
         email_error := none, message := none }, user2)

/-- A `RegisterView.create` response: tokens, the serialized user data, and the
optional `email_error` field. -/
structure RegisterResponse where
  status_code : Nat
  refresh : Option String
  access : Option String
  data : List (String × String)
  email_error : Option String
deriving DecidableEq

/-- `RegisterView.create` after `super().create` ran: `created` is the result of
re-fetching the user by email (`none` is the `DoesNotExist` branch),
`responseData` the serializer payload spread into the body, `refreshTok` /
`accessTok` the token pair issued for the user. -/
def registerCreate (created : Option CustomUser) (responseData : List (String × String))
    (refreshTok accessTok : String) (ses : SendEmailRequest → SesOutcome) :
    RegisterResponse :=
  match created with
  | none =>
      { status_code := 400, refresh := none, access := none,
        data := [("error", "User could not be created.")], email_error := none }
  | some user =>
      let emailResponse := send_email_ses ses user.username user.otp user.email
      if emailResponse.success = false then
        { status_code := 200, refresh := some refreshTok, access := some accessTok,
          data := responseData, email_error := some emailResponse.message }
      else
        { status_code := 200, refresh := some refreshTok, access := some accessTok,
          data := responseData, email_error := none }

/-- States of a user record reachable through the handlers, starting from a
freshly registered user (`otp_attempts = 0`, `otp_attempts_timestamp` unset,
unverified). -/
inductive Reachable : CustomUser → Prop where
  | init (username email otp : String) (created expiration : Int) :
      Reachable { username := username, email := email, is_verified := false,
                  otp := otp, otp_created_at := created, otp_expiration := expiration,
                  otp_attempts := 0, otp_attempts_timestamp := none }
  | verify (u u' : CustomUser) (resp : ApiResponse) (n1 n2 n3 : Int) (code : String) :
      Reachable u → verifyEmailPost n1 n2 n3 code u = some (resp, u') → Reachable u'
  | resend (u : CustomUser) (rv : Nat) (nC nE : Int) (ses : SendEmailRequest → SesOutcome) :
      Reachable u → Reachable (resendOTPPost rv nC nE ses u).2

/-- Length of the fuelled decimal digit expansion: with enough fuel it is
`log 10 n + 1` digits prepended to the accumulator. -/
theorem toDigitsCore_length (fuel : Nat) :
    ∀ (n : Nat) (ds : List Char), n < fuel →
      (Nat.toDigitsCore 10 fuel n ds).length = Nat.log 10 n + 1 + ds.length := by
  induction fuel with
  | zero => intro n ds h; exact absurd h (Nat.not_lt_zero n)
  | succ f ih =>
    intro n ds h
    simp only [Nat.toDigitsCore]
    by_cases h0 : n / 10 = 0
    · have hn : n < 10 := by omega
      have hlog : Nat.log 10 n = 0 := Nat.log_eq_zero_iff.mpr (Or.inl hn)
      rw [if_pos h0]
      simp only [List.length_cons, hlog]
      omega
    · rw [if_neg h0]
      have hn10 : 10 ≤ n := by omega
      have hrec := ih (n / 10) (Nat.digitChar (n % 10) :: ds) (by omega)
      rw [hrec]
      have hlog := Nat.log_div_base 10 n
      have hpos := Nat.log_pos (by norm_num) hn10
      simp only [List.length_cons]
      omega

/-- `Nat.repr n` has `log 10 n + 1` characters. -/
theorem repr_length_eq (n : Nat) : (Nat.repr n).length = Nat.log 10 n + 1 := by
  show ((Nat.toDigits 10 n).asString).length = _
  have h : ((Nat.toDigits 10 n).asString).length = (Nat.toDigits 10 n).length := rfl
  rw [h]
  exact toDigitsCore_length (n + 1) n [] (Nat.lt_succ_self n)

/-- Any value `random.randint(100000, 999999)` can return prints as 6 digits. -/
theorem repr_length_six (n : Nat) (h1 : 100000 ≤ n) (h2 : n ≤ 999999) :
    (Nat.repr n).length = 6 := by
  rw [repr_length_eq]
  have h5 : (10 : Nat) ^ 5 ≤ n := by
    calc (10 : Nat) ^ 5 = 100000 := by norm_num
    _ ≤ n := h1
  have h6 : n < (10 : Nat) ^ 6 := by
    calc n ≤ 999999 := h2
    _ < (10 : Nat) ^ 6 := by norm_num
    
  have : Nat.log 10 n = 5 := Nat.log_eq_of_pow_le_of_lt_pow h5 h6
  omega

/-- On an unverified user, `ResendOTP.post` persists exactly the regenerated
OTP fields, in both email outcomes. -/
theorem resendOTPPost_state (rv : Nat) (nC nE : Int) (ses : SendEmailRequest → SesOutcome)
    (u : CustomUser) (hver : u.is_verified = false) :
    (resendOTPPost rv nC nE ses u).2 =
      { u with otp := Nat.repr rv, otp_created_at := nC, otp_expiration := nE + 600 } := by
  unfold resendOTPPost
  rw [if_neg (by simp [hver])]
  dsimp only
  split <;> rfl

/-- On an already verified user, `ResendOTP.post` leaves the record untouched. -/
theorem resendOTPPost_state_verified (rv : Nat) (nC nE : Int)
    (ses : SendEmailRequest → SesOutcome) (u : CustomUser) (hver : u.is_verified = true) :
    (resendOTPPost rv nC nE ses u).2 = u := by
  unfold resendOTPPost
  rw [if_pos (by simp [hver])]

/-- C1: for an unverified user whose OTP is unexpired and who is not locked out,
submitting the stored code verifies the account: `is_verified` becomes true,
`otp_attempts` resets to 0, `otp_attempts_timestamp` clears, and the response is
the 200 success message. -/
theorem verify_correct_otp_success (n1 n2 n3 : Int) (code : String) (u : CustomUser)
    (hver : u.is_verified = false)
    (hexp : ¬ n1 > u.otp_expiration)
    (hlock : u.otp_attempts < 3 ∨ ∃ ts, u.otp_attempts_timestamp = some ts ∧ 600 ≤ n2 - ts)
    (hcode : code = u.otp) :
    verifyEmailPost n1 n2 n3 code u =
      some ({ status_code := 200, status := "Email verified, please proceed to Login page" },
            { u with is_verified := true, otp_attempts := 0,
                     otp_attempts_timestamp := none }) := by
  have hcp : verifyEmailChecksPassed n3 code u =
      ({ status_code := 200, status := "Email verified, please proceed to Login page" },
       { u with is_verified := true, otp_attempts := 0, otp_attempts_timestamp := none }) := by
    unfold verifyEmailChecksPassed
    rw [if_neg (by simp [hver]), if_pos hcode]
  unfold verifyEmailPost
  rw [if_neg hexp]
  by_cases h3 : 3 ≤ u.otp_attempts
  · obtain ⟨ts, hts, hge⟩ : ∃ ts, u.otp_attempts_timestamp = some ts ∧ 600 ≤ n2 - ts := by
      rcases hlock with h | h
      · omega
      · exact h
    rw [if_pos h3]
    simp only [hts]
    rw [if_neg (by omega), hcp]
  · rw [if_neg h3, hcp]

/-- Witness for C1 at a concrete unverified user with a fresh OTP. -/
theorem verify_correct_otp_success_witness :
    verifyEmailPost 0 0 0 "123456"
      { username := "alice", email := "a@x.com", is_verified := false, otp := "123456",
        otp_created_at := 0, otp_expiration := 600, otp_attempts := 0,
        otp_attempts_timestamp := none } =
      some ({ status_code := 200, status := "Email verified, please proceed to Login page" },
            { username := "alice", email := "a@x.com", is_verified := true, otp := "123456",
              otp_created_at := 0, otp_expiration := 600, otp_attempts := 0,
              otp_attempts_timestamp := none }) :=
  verify_correct_otp_success 0 0 0 "123456" _ rfl (by decide) (Or.inl (by decide)) rfl

/-- C2: whenever the expiration-check `timezone.now()` exceeds `otp_expiration`,
the attempt is rejected 400 "OTP has expired" with the record unchanged, for
every user, attempt count and submitted code. -/
theorem verify_expired_rejected (n1 n2 n3 : Int) (code : String) (u : CustomUser)
    (hexp : n1 > u.otp_expiration) :
    verifyEmailPost n1 n2 n3 code u =
      some ({ status_code := 400, status := "OTP has expired" }, u) := by
  unfold verifyEmailPost
  rw [if_pos hexp]

/-- Witness for C2: the correct code one second after expiration is rejected. -/
theorem verify_expired_rejected_witness :
    verifyEmailPost 601 601 601 "123456"
      { username := "alice", email := "a@x.com", is_verified := false, otp := "123456",
        otp_created_at := 0, otp_expiration := 600, otp_attempts := 0,
        otp_attempts_timestamp := none } =
      some ({ status_code := 400, status := "OTP has expired" },
            { username := "alice", email := "a@x.com", is_verified := false, otp := "123456",
              otp_created_at := 0, otp_expiration := 600, otp_attempts := 0,
              otp_attempts_timestamp := none }) :=
  verify_expired_rejected 601 601 601 "123456" _ (by decide)

/-- C3: with `otp_attempts >= 3`, a stamped `otp_attempts_timestamp` less than
600 seconds old, and an unexpired OTP, every attempt — correct code included —
is rejected with the lockout message and the record is returned unchanged. -/
theorem verify_lockout_rejected (n1 n2 n3 : Int) (code : String) (u : CustomUser) (ts : Int)
    (hexp : ¬ n1 > u.otp_expiration) (h3 : 3 ≤ u.otp_attempts)
    (hts : u.otp_attempts_timestamp = some ts) (hel : n2 - ts < 600) :
    verifyEmailPost n1 n2 n3 code u =
      some ({ status_code := 400,
              status := "Too many failed attempts. Please try again later." }, u) := by
  unfold verifyEmailPost
  rw [if_neg hexp, if_pos h3]
  simp only [hts]
  rw [if_pos hel]

/-- Witness for C3: a 4th attempt with the correct code 30 seconds into the
lockout window is rejected. -/
theorem verify_lockout_rejected_witness :
    verifyEmailPost 330 330 330 "123456"
      { username := "alice", email := "a@x.com", is_verified := false, otp := "123456",
        otp_created_at := 0, otp_expiration := 600, otp_attempts := 3,
        otp_attempts_timestamp := some 300 } =
      some ({ status_code := 400,
              status := "Too many failed attempts. Please try again later." },
            { username := "alice", email := "a@x.com", is_verified := false, otp := "123456",
              otp_created_at := 0, otp_expiration := 600, otp_attempts := 3,
              otp_attempts_timestamp := some 300 }) :=
  verify_lockout_rejected 330 330 330 "123456" _ 300 (by decide) (by decide) rfl (by decide)

/-- Counterexample to C4 as stated: an already verified user with an expired
OTP does not get the already-verified success response — the expiration guard
runs first and answers 400 "OTP has expired". -/
theorem verify_already_verified_cex :
    ¬ (∀ (n1 n2 n3 : Int) (code : String) (u : CustomUser), u.is_verified = true →
        verifyEmailPost n1 n2 n3 code u =
          some ({ status_code := 200, status := "Email already verified, please Login" }, u)) := by
  intro hclaim
  have h := hclaim 601 601 601 "111111"
    { username := "alice", email := "a@x.com", is_verified := true, otp := "111111",
      otp_created_at := 0, otp_expiration := 600, otp_attempts := 0,
      otp_attempts_timestamp := none } rfl
  exact absurd h (by decide)

/-- C4 (amended): for a user with `is_verified` already true whose OTP is not
expired and for whom the lockout guard does not fire, a verification attempt
with any submitted code short-circuits with the 200 already-verified response
and leaves the record unchanged. -/
theorem verify_already_verified_shortcircuit (n1 n2 n3 : Int) (code : String) (u : CustomUser)
    (hver : u.is_verified = true)
    (hexp : ¬ n1 > u.otp_expiration)
    (hlock : u.otp_attempts < 3 ∨ ∃ ts, u.otp_attempts_timestamp = some ts ∧ 600 ≤ n2 - ts) :
    verifyEmailPost n1 n2 n3 code u =
      some ({ status_code := 200, status := "Email already verified, please Login" }, u) := by
  have hcp : verifyEmailChecksPassed n3 code u =
      ({ status_code := 200, status := "Email already verified, please Login" }, u) := by
    unfold verifyEmailChecksPassed
    rw [if_pos (by simp [hver])]
  unfold verifyEmailPost
  rw [if_neg hexp]
  by_cases h3 : 3 ≤ u.otp_attempts
  · obtain ⟨ts, hts, hge⟩ : ∃ ts, u.otp_attempts_timestamp = some ts ∧ 600 ≤ n2 - ts := by
      rcases hlock with h | h
      · omega
      · exact h
    rw [if_pos h3]
    simp only [hts]
    rw [if_neg (by omega), hcp]
  · rw [if_neg h3, hcp]

/-- Witness for the amended C4 at a concrete verified user. -/
theorem verify_already_verified_shortcircuit_witness :
    verifyEmailPost 10 10 10 "000000"
      { username := "alice", email := "a@x.com", is_verified := true, otp := "123456",
        otp_created_at := 0, otp_expiration := 600, otp_attempts := 0,
        otp_attempts_timestamp := none } =
      some ({ status_code := 200, status := "Email already verified, please Login" },
            { username := "alice", email := "a@x.com", is_verified := true, otp := "123456",
              otp_created_at := 0, otp_expiration := 600, otp_attempts := 0,
              otp_attempts_timestamp := none }) :=
  verify_already_verified_shortcircuit 10 10 10 "000000" _ rfl (by decide)
    (Or.inl (by decide))

/-- Counterexample to C5 as stated: `otp_created_at` and `otp_expiration` are
set from two separate `timezone.now()` calls (lines 231 and 232), so when the
clock advances by one second between them the persisted record has
`otp_expiration = otp_created_at + 601`, not `+ 600`. -/
theorem resend_expiration_drift_cex :
    (resendOTPPost 123456 0 1 (fun _ => SesOutcome.ok "mid")
        { username := "alice", email := "a@x.com", is_verified := false, otp := "111111",
          otp_created_at := 0, otp_expiration := 600, otp_attempts := 0,
          otp_attempts_timestamp := none }).2.otp_expiration ≠
      (resendOTPPost 123456 0 1 (fun _ => SesOutcome.ok "mid")
        { username := "alice", email := "a@x.com", is_verified := false, otp := "111111",
          otp_created_at := 0, otp_expiration := 600, otp_attempts := 0,
          otp_attempts_timestamp := none }).2.otp_created_at + 600 := by decide

/-- C5 (amended): on OTP resend for an unverified user the persisted record has
`otp_created_at` equal to the first `timezone.now()` and `otp_expiration` equal
to the second `timezone.now()` plus 10 minutes; under a monotone clock this
gives `otp_expiration >= otp_created_at + 10 minutes`, with equality exactly
when the two calls return the same instant. -/
theorem resend_expiration_invariant (rv : Nat) (nC nE : Int)
    (ses : SendEmailRequest → SesOutcome) (u : CustomUser)
    (hver : u.is_verified = false) (hmono : nC ≤ nE) :
    (resendOTPPost rv nC nE ses u).2.otp_created_at = nC ∧
    (resendOTPPost rv nC nE ses u).2.otp_expiration = nE + 600 ∧
    (resendOTPPost rv nC nE ses u).2.otp_created_at + 600 ≤
      (resendOTPPost rv nC nE ses u).2.otp_expiration ∧
    (nE = nC →
      (resendOTPPost rv nC nE ses u).2.otp_expiration =
        (resendOTPPost rv nC nE ses u).2.otp_created_at + 600) := by
  rw [resendOTPPost_state rv nC nE ses u hver]
  refine ⟨rfl, rfl, ?_, fun h => by simp [h]⟩
  dsimp only
  omega

/-- Witness for the amended C5 at a concrete unverified user. -/
theorem resend_expiration_invariant_witness :
    (resendOTPPost 123456 5 5 (fun _ => SesOutcome.ok "mid")
        { username := "alice", email := "a@x.com", is_verified := false, otp := "111111",
          otp_created_at := 0, otp_expiration := 600, otp_attempts := 0,
          otp_attempts_timestamp := none }).2.otp_created_at = 5 ∧
    (resendOTPPost 123456 5 5 (fun _ => SesOutcome.ok "mid")
        { username := "alice", email := "a@x.com", is_verified := false, otp := "111111",
          otp_created_at := 0, otp_expiration := 600, otp_attempts := 0,
          otp_attempts_timestamp := none }).2.otp_expiration = 5 + 600 ∧
    (resendOTPPost 123456 5 5 (fun _ => SesOutcome.ok "mid")
        { username := "alice", email := "a@x.com", is_verified := false, otp := "111111",
          otp_created_at := 0, otp_expiration := 600, otp_attempts := 0,
          otp_attempts_timestamp := none }).2.otp_created_at + 600 ≤
      (resendOTPPost 123456 5 5 (fun _ => SesOutcome.ok "mid")
        { username := "alice", email := "a@x.com", is_verified := false, otp := "111111",
          otp_created_at := 0, otp_expiration := 600, otp_attempts := 0,
          otp_attempts_timestamp := none }).2.otp_expiration ∧
    ((5 : Int) = 5 →
      (resendOTPPost 123456 5 5 (fun _ => SesOutcome.ok "mid")
        { username := "alice", email := "a@x.com", is_verified := false, otp := "111111",
          otp_created_at := 0, otp_expiration := 600, otp_attempts := 0,
          otp_attempts_timestamp := none }).2.otp_expiration =
      (resendOTPPost 123456 5 5 (fun _ => SesOutcome.ok "mid")
        { username := "alice", email := "a@x.com", is_verified := false, otp := "111111",
          otp_created_at := 0, otp_expiration := 600, otp_attempts := 0,
          otp_attempts_timestamp := none }).2.otp_created_at + 600) :=
  resend_expiration_invariant 123456 5 5 (fun _ => SesOutcome.ok "mid") _ rfl (by decide)

/-- C6: when the email send fails during OTP resend for an unverified user the
response is HTTP 500 carrying `email_error`, and the returned (persisted)
record already holds the regenerated `otp`, `otp_created_at` and
`otp_expiration` — the save at line 233 precedes the send and is not rolled
back. -/
theorem resend_email_failure_500 (rv : Nat) (nC nE : Int)
    (ses : SendEmailRequest → SesOutcome) (u : CustomUser) (e : String)
    (hver : u.is_verified = false)
    (hfail : ses { toAddresses := [u.email], htmlBody := emailHtmlBody u.username (Nat.repr rv),
                   subject := "Your one-time password",
                   source := "vidyalathanataraja.r@northeastern.edu" } =
             SesOutcome.botoError e) :
    (resendOTPPost rv nC nE ses u).1.status_code = 500 ∧
    (resendOTPPost rv nC nE ses u).1.email_error = some "OTP not sent" ∧
    (resendOTPPost rv nC nE ses u).1.message = some e ∧
    (resendOTPPost rv nC nE ses u).2.otp = Nat.repr rv ∧
    (resendOTPPost rv nC nE ses u).2.otp_created_at = nC ∧
    (resendOTPPost rv nC nE ses u).2.otp_expiration = nE + 600 := by
  unfold resendOTPPost
  rw [if_neg (by simp [hver])]
  simp only [send_email_ses, hfail]
  exact ⟨rfl, rfl, rfl, rfl, rfl, rfl⟩

/-- Witness for C6 at a concrete unverified user and an always-failing sender. -/
theorem resend_email_failure_500_witness :
    (resendOTPPost 123456 0 0 (fun _ => SesOutcome.botoError "boom")
        { username := "alice", email := "a@x.com", is_verified := false, otp := "111111",
          otp_created_at := 0, otp_expiration := 600, otp_attempts := 0,
          otp_attempts_timestamp := none }).1.status_code = 500 ∧
    (resendOTPPost 123456 0 0 (fun _ => SesOutcome.botoError "boom")
        { username := "alice", email := "a@x.com", is_verified := false, otp := "111111",
          otp_created_at := 0, otp_expiration := 600, otp_attempts := 0,
          otp_attempts_timestamp := none }).1.email_error = some "OTP not sent" ∧
    (resendOTPPost 123456 0 0 (fun _ => SesOutcome.botoError "boom")
        { username := "alice", email := "a@x.com", is_verified := false, otp := "111111",
          otp_created_at := 0, otp_expiration := 600, otp_attempts := 0,
          otp_attempts_timestamp := none }).1.message = some "boom" ∧
    (resendOTPPost 123456 0 0 (fun _ => SesOutcome.botoError "boom")
        { username := "alice", email := "a@x.com", is_verified := false, otp := "111111",
          otp_created_at := 0, otp_expiration := 600, otp_attempts := 0,
          otp_attempts_timestamp := none }).2.otp = Nat.repr 123456 ∧
    (resendOTPPost 123456 0 0 (fun _ => SesOutcome.botoError "boom")
        { username := "alice", email := "a@x.com", is_verified := false, otp := "111111",
          otp_created_at := 0, otp_expiration := 600, otp_attempts := 0,
          otp_attempts_timestamp := none }).2.otp_created_at = 0 ∧
    (resendOTPPost 123456 0 0 (fun _ => SesOutcome.botoError "boom")
        { username := "alice", email := "a@x.com", is_verified := false, otp := "111111",
          otp_created_at := 0, otp_expiration := 600, otp_attempts := 0,
          otp_attempts_timestamp := none }).2.otp_expiration = 0 + 600 :=
  resend_email_failure_500 123456 0 0 (fun _ => SesOutcome.botoError "boom") _ "boom" rfl rfl

/-- C7: for an unverified user, resend persists exactly the decimal string of
the sampled value (6 characters for every value `randint(100000, 999999)` can
return) and the refreshed `otp_created_at` / `otp_expiration`, leaving
`otp_attempts`, `otp_attempts_timestamp` and `is_verified` unchanged; for an
already-verified user, resend mutates nothing. -/
theorem resend_regenerates_otp (rv : Nat) (nC nE : Int)
    (ses : SendEmailRequest → SesOutcome) (u : CustomUser)
    (hlo : 100000 ≤ rv) (hhi : rv ≤ 999999) :
    (u.is_verified = false →
      (resendOTPPost rv nC nE ses u).2 =
        { u with otp := Nat.repr rv, otp_created_at := nC, otp_expiration := nE + 600 } ∧
      ((resendOTPPost rv nC nE ses u).2.otp).length = 6) ∧
    (u.is_verified = true → (resendOTPPost rv nC nE ses u).2 = u) := by
  constructor
  · intro hver
    refine ⟨resendOTPPost_state rv nC nE ses u hver, ?_⟩
    rw [resendOTPPost_state rv nC nE ses u hver]
    exact repr_length_six rv hlo hhi
  · intro hver
    exact resendOTPPost_state_verified rv nC nE ses u hver

/-- Witness for C7 at a concrete unverified user with the boundary sample. -/
theorem resend_regenerates_otp_witness :
    (CustomUser.is_verified
        { username := "alice", email := "a@x.com", is_verified := false, otp := "111111",
          otp_created_at := 0, otp_expiration := 600, otp_attempts := 2,
          otp_attempts_timestamp := some 4 } = false →
      (resendOTPPost 100000 7 8 (fun _ => SesOutcome.ok "mid")
        { username := "alice", email := "a@x.com", is_verified := false, otp := "111111",
          otp_created_at := 0, otp_expiration := 600, otp_attempts := 2,
          otp_attempts_timestamp := some 4 }).2 =
        { username := "alice", email := "a@x.com", is_verified := false,
          otp := Nat.repr 100000, otp_created_at := 7, otp_expiration := 8 + 600,
          otp_attempts := 2, otp_attempts_timestamp := some 4 } ∧
      ((resendOTPPost 100000 7 8 (fun _ => SesOutcome.ok "mid")
        { username := "alice", email := "a@x.com", is_verified := false, otp := "111111",
          otp_created_at := 0, otp_expiration := 600, otp_attempts := 2,
          otp_attempts_timestamp := some 4 }).2.otp).length = 6) ∧
    (CustomUser.is_verified
        { username := "alice", email := "a@x.com", is_verified := false, otp := "111111",
          otp_created_at := 0, otp_expiration := 600, otp_attempts := 2,
          otp_attempts_timestamp := some 4 } = true →
      (resendOTPPost 100000 7 8 (fun _ => SesOutcome.ok "mid")
        { username := "alice", email := "a@x.com", is_verified := false, otp := "111111",
          otp_created_at := 0, otp_expiration := 600, otp_attempts := 2,
          otp_attempts_timestamp := some 4 }).2 =
        { username := "alice", email := "a@x.com", is_verified := false, otp := "111111",
          otp_created_at := 0, otp_expiration := 600, otp_attempts := 2,
          otp_attempts_timestamp := some 4 }) :=
  resend_regenerates_otp 100000 7 8 (fun _ => SesOutcome.ok "mid") _ (by decide) (by decide)

/-- C8: once the user record is created, registration responds 200 with both
tokens and the serializer payload regardless of the email outcome; the
`email_error` field is absent exactly when the send succeeded, and it is the
only field that differs between the two outcomes. -/
theorem register_returns_tokens (u : CustomUser) (responseData : List (String × String))
    (refreshTok accessTok : String) (ses : SendEmailRequest → SesOutcome) :
    (registerCreate (some u) responseData refreshTok accessTok ses).status_code = 200 ∧
    (registerCreate (some u) responseData refreshTok accessTok ses).refresh = some refreshTok ∧
    (registerCreate (some u) responseData refreshTok accessTok ses).access = some accessTok ∧
    (registerCreate (some u) responseData refreshTok accessTok ses).data = responseData ∧
    ((registerCreate (some u) responseData refreshTok accessTok ses).email_error = none ↔
      (send_email_ses ses u.username u.otp u.email).success = true) := by
  unfold registerCreate
  dsimp only
  by_cases h : (send_email_ses ses u.username u.otp u.email).success = false
  · rw [if_pos h]
    exact ⟨rfl, rfl, rfl, rfl, by simp [h]⟩
  · rw [if_neg h]
    have h' : (send_email_ses ses u.username u.otp u.email).success = true := by
      cases hx : (send_email_ses ses u.username u.otp u.email).success
      · exact absurd hx h
      · rfl
    exact ⟨rfl, rfl, rfl, rfl, by simp [h']⟩

/-- C9: `send_email_ses` always returns a structured result: the provider
`MessageId` with `success = true` when the external call answers, the error
string with `success = false` when it raises; totality of the definition is the
no-exception-escapes property. -/
theorem send_email_ses_structured (ses : SendEmailRequest → SesOutcome)
    (username otp email : String) :
    (∃ messageId,
        ses { toAddresses := [email], htmlBody := emailHtmlBody username otp,
              subject := "Your one-time password",
              source := "vidyalathanataraja.r@northeastern.edu" } = SesOutcome.ok messageId ∧
        send_email_ses ses username otp email = { success := true, message := messageId }) ∨
    (∃ error,
        ses { toAddresses := [email], htmlBody := emailHtmlBody username otp,
              subject := "Your one-time password",
              source := "vidyalathanataraja.r@northeastern.edu" } =
          SesOutcome.botoError error ∧
        send_email_ses ses username otp email = { success := false, message := error }) := by
  cases h : ses { toAddresses := [email], htmlBody := emailHtmlBody username otp,
                  subject := "Your one-time password",
                  source := "vidyalathanataraja.r@northeastern.edu" } with
  | ok messageId => exact Or.inl ⟨messageId, rfl, by unfold send_email_ses; rw [h]⟩
  | botoError error => exact Or.inr ⟨error, rfl, by unfold send_email_ses; rw [h]⟩

/-- A wrong-code attempt below the guards stamps the timestamp it needs later:
the checks-passed stage preserves "attempts ≥ 1 implies timestamp set". -/
theorem checksPassed_preserves (n3 : Int) (code : String) (u : CustomUser)
    (h : 1 ≤ u.otp_attempts → u.otp_attempts_timestamp.isSome = true) :
    1 ≤ (verifyEmailChecksPassed n3 code u).2.otp_attempts →
      (verifyEmailChecksPassed n3 code u).2.otp_attempts_timestamp.isSome = true := by
  unfold verifyEmailChecksPassed
  by_cases hv : u.is_verified
  · rw [if_pos hv]
    exact h
  · rw [if_neg hv]
    by_cases hc : code = u.otp
    · rw [if_pos hc]
      intro h1
      dsimp only at h1
      omega
    · rw [if_neg hc]
      dsimp only
      by_cases h0 : u.otp_attempts = 0
      · rw [if_pos (by omega)]
        intro _
        rfl
      · rw [if_neg (by omega)]
        intro _
        exact h (by omega)

/-- A completed `VerifyEmail.post` step preserves "attempts ≥ 1 implies
timestamp set". -/
theorem verifyPost_preserves (n1 n2 n3 : Int) (code : String) (u u' : CustomUser)
    (resp : ApiResponse)
    (h : 1 ≤ u.otp_attempts → u.otp_attempts_timestamp.isSome = true)
    (heq : verifyEmailPost n1 n2 n3 code u = some (resp, u')) :
    1 ≤ u'.otp_attempts → u'.otp_attempts_timestamp.isSome = true := by
  unfold verifyEmailPost at heq
  split at heq
  · rw [Option.some.injEq, Prod.mk.injEq] at heq
    rw [← heq.2]
    exact h
  · split at heq
    · split at heq
      · exact Option.noConfusion heq
      · split at heq
        · rw [Option.some.injEq, Prod.mk.injEq] at heq
          rw [← heq.2]
          exact h
        · rw [Option.some.injEq] at heq
          have h2 : (verifyEmailChecksPassed n3 code u).2 = u' := congrArg Prod.snd heq
          rw [← h2]
          exact checksPassed_preserves n3 code u h
    · rw [Option.some.injEq] at heq
      have h2 : (verifyEmailChecksPassed n3 code u).2 = u' := congrArg Prod.snd heq
      rw [← h2]
      exact checksPassed_preserves n3 code u h

/-- Under "attempts ≥ 1 implies timestamp set", `VerifyEmail.post` never hits
the absent-timestamp subtraction. -/
theorem verifyPost_no_crash (n1 n2 n3 : Int) (code : String) (u : CustomUser)
    (h : 1 ≤ u.otp_attempts → u.otp_attempts_timestamp.isSome = true) :
    verifyEmailPost n1 n2 n3 code u ≠ none := by
  unfold verifyEmailPost
  by_cases hexp : n1 > u.otp_expiration
  · rw [if_pos hexp]
    simp
  · rw [if_neg hexp]
    by_cases h3 : 3 ≤ u.otp_attempts
    · rw [if_pos h3]
      have hsome := h (by omega)
      cases hts : u.otp_attempts_timestamp with
      | none => rw [hts] at hsome; simp at hsome
      | some ts =>
        dsimp only
        split <;> simp
    · rw [if_neg h3]
      simp

/-- Every state reachable from a fresh user keeps the timestamp set whenever
`otp_attempts ≥ 1`. -/
theorem reachable_inv (u : CustomUser) (h : Reachable u) :
    1 ≤ u.otp_attempts → u.otp_attempts_timestamp.isSome = true := by
  induction h with
  | init username email otp created expiration =>
      intro h1
      exact absurd h1 (by simp)
  | verify u u' resp n1 n2 n3 code hr heq ih =>
      exact verifyPost_preserves n1 n2 n3 code u u' resp ih heq
  | resend u rv nC nE ses hr ih =>
      by_cases hv : u.is_verified
      · rw [resendOTPPost_state_verified rv nC nE ses u hv]
        exact ih
      · have hv' : u.is_verified = false := by simpa using hv
        rw [resendOTPPost_state rv nC nE ses u hv']
        exact ih

/-- C10: in every user state the handlers can reach from a fresh user,
`otp_attempts ≥ 1` implies `otp_attempts_timestamp` is set, so the elapsed-time
subtraction in the lockout guard never runs on an absent timestamp (the
embedded handler never returns the crash marker `none`). -/
theorem verify_lockout_timestamp_safe (u : CustomUser) (h : Reachable u) :
    (1 ≤ u.otp_attempts → u.otp_attempts_timestamp.isSome = true) ∧
    ∀ (n1 n2 n3 : Int) (code : String), verifyEmailPost n1 n2 n3 code u ≠ none :=
  ⟨reachable_inv u h,
   fun n1 n2 n3 code => verifyPost_no_crash n1 n2 n3 code u (reachable_inv u h)⟩

/-- Witness for C10 at the state reached from a fresh user by one failed
attempt (`otp_attempts = 1`, timestamp stamped by that attempt). -/
theorem verify_lockout_timestamp_safe_witness :
    (1 ≤ CustomUser.otp_attempts
        { username := "bob", email := "b@x.com", is_verified := false, otp := "222222",
          otp_created_at := 0, otp_expiration := 1000, otp_attempts := 1,
          otp_attempts_timestamp := some 5 } →
      (CustomUser.otp_attempts_timestamp
        { username := "bob", email := "b@x.com", is_verified := false, otp := "222222",
          otp_created_at := 0, otp_expiration := 1000, otp_attempts := 1,
          otp_attempts_timestamp := some 5 }).isSome = true) ∧
    ∀ (n1 n2 n3 : Int) (code : String),
      verifyEmailPost n1 n2 n3 code
        { username := "bob", email := "b@x.com", is_verified := false, otp := "222222",
          otp_created_at := 0, otp_expiration := 1000, otp_attempts := 1,
          otp_attempts_timestamp := some 5 } ≠ none :=
  verify_lockout_timestamp_safe _
    (Reachable.verify
      { username := "bob", email := "b@x.com", is_verified := false, otp := "222222",
        otp_created_at := 0, otp_expiration := 1000, otp_attempts := 0,
        otp_attempts_timestamp := none }
      { username := "bob", email := "b@x.com", is_verified := false, otp := "222222",
        otp_created_at := 0, otp_expiration := 1000, otp_attempts := 1,
        otp_attempts_timestamp := some 5 }
      { status_code := 400, status := "Invalid OTP" } 0 0 5 "999999"
      (Reachable.init "bob" "b@x.com" "222222" 0 1000) (by decide))
